import Mathlib

/-!
Verification of the MapD SQL semantic analyzer (`src/Parser/ParserNode.cpp`)
against its natural-language specification.

The development shallowly embeds the parse-tree analysis and DDL-execution
functions of `ParserNode.cpp` as pure Lean functions.  Fallible C++ code
(functions that `throw std::runtime_error`) is embedded as `Except String`
with the exact message strings of the source.  External collaborators that
are not part of the repository source (the `Analyzer` expression methods
and the catalog) are either passed as explicit parameters or modelled from
the specification, as noted on each definition.
-/

namespace MapD

/-- SQL type tags (`SQLTypes` in the source). -/
inductive SQLTypes
  | kNULLT
  | kBOOLEAN
  | kCHAR
  | kVARCHAR
  | kTEXT
  | kNUMERIC
  | kDECIMAL
  | kSMALLINT
  | kINT
  | kBIGINT
  | kFLOAT
  | kDOUBLE
  | kTIME
  | kTIMESTAMP
  deriving DecidableEq, Repr

/-- Semantic type descriptor (`SQLTypeInfo`): tag, dimension, scale,
nullability.  Modelled from the spec: two `TypeInfo` are equal iff all
fields match (§3.1); a default-constructed value has zero dimension and
scale and is nullable. -/
structure SQLTypeInfo where
  type : SQLTypes := .kNULLT
  dimension : Int := 0
  scale : Int := 0
  notnull : Bool := false
  deriving DecidableEq, Repr

/-- Column encoding tags (`EncodingType`). -/
inductive EncodingType
  | kENCODING_NONE
  | kENCODING_FIXED
  | kENCODING_RL
  | kENCODING_DIFF
  | kENCODING_DICT
  | kENCODING_SPARSE
  deriving DecidableEq, Repr

/-- Operator tags (`SQLOps`). -/
inductive SQLOps
  | kEQ
  | kNE
  | kLT
  | kGT
  | kLE
  | kGE
  | kAND
  | kOR
  | kNOT
  | kUMINUS
  | kPLUS
  | kMINUS
  | kMULTIPLY
  | kDIVIDE
  | kISNULL
  | kCAST
  deriving DecidableEq, Repr

/-- Subquery qualifier (`SQLQualifier`). -/
inductive SQLQualifier
  | kONE
  | kANY
  | kALL
  deriving DecidableEq, Repr

/-- Aggregate tags (`SQLAgg`). -/
inductive SQLAgg
  | kCOUNT
  | kMIN
  | kMAX
  | kAVG
  | kSUM
  deriving DecidableEq, Repr

/-- Literal payload (`Datum`).  Only the variants the verified claims touch
are given content; other payloads are collapsed to `otherval`. -/
inductive Datum
  | smallintval (v : Int)
  | intval (v : Int)
  | bigintval (v : Int)
  | strval (s : String)
  | otherval
  deriving DecidableEq, Repr

/-- Analyzed expression tree (`Analyzer::Expr` and its subclasses), as
produced by the `analyze` methods embedded below. -/
inductive AExpr
  | Constant (ti : SQLTypeInfo) (is_null : Bool) (d : Datum)
  | ColumnVar (ti : SQLTypeInfo) (table_id : Int) (column_id : Int)
      (rte_idx : Int) (compression : EncodingType) (comp_param : Int)
  | UOper (ti : SQLTypeInfo) (optype : SQLOps) (operand : AExpr)
  | BinOper (ti : SQLTypeInfo) (optype : SQLOps) (qualifier : SQLQualifier)
      (left_operand : AExpr) (right_operand : AExpr)
  | AggExpr (ti : SQLTypeInfo) (aggtype : SQLAgg) (arg : Option AExpr)
      (is_distinct : Bool)
  | CaseExpr (ti : SQLTypeInfo) (expr_pair_list : List (AExpr × AExpr))
      (else_e : Option AExpr)

/-- `Analyzer::Expr::get_type_info`. -/
def AExpr.get_type_info : AExpr → SQLTypeInfo
  | .Constant ti _ _ => ti
  | .ColumnVar ti _ _ _ _ _ => ti
  | .UOper ti _ _ => ti
  | .BinOper ti _ _ _ _ => ti
  | .AggExpr ti _ _ _ => ti
  | .CaseExpr ti _ _ => ti

/-- `Analyzer::Expr::set_type_info`: replace the node's type descriptor in
place (the C++ mutation is a functional update here). -/
def AExpr.set_type_info : AExpr → SQLTypeInfo → AExpr
  | .Constant _ n d, ti => .Constant ti n d
  | .ColumnVar _ t c r cp p, ti => .ColumnVar ti t c r cp p
  | .UOper _ o e, ti => .UOper ti o e
  | .BinOper _ o q l r, ti => .BinOper ti o q l r
  | .AggExpr _ a e d, ti => .AggExpr ti a e d
  | .CaseExpr _ ps e, ti => .CaseExpr ti ps e

/-- Modelled from the spec: `Analyzer::Expr::add_cast` (§3.2) is a no-op
when the expression already has the target type and otherwise wraps the
expression in a CAST `UOper`.  The spec's in-place rewrite of representable
`Constant` literals is represented by the same cast node, since either way
the result carries exactly the target type. -/
def AExpr.add_cast (e : AExpr) (ti : SQLTypeInfo) : AExpr :=
  if e.get_type_info = ti then e else .UOper ti .kCAST e

/-- `Analyzer::Expr::deep_copy`.  In this pure embedding a deep copy is
value-identical to the original; pointer sharing is not observable. -/
def AExpr.deep_copy (e : AExpr) : AExpr := e

/-- ASCII lowercasing of one character. -/
def lowerChar (c : Char) : Char :=
  if 65 ≤ c.toNat ∧ c.toNat ≤ 90 then Char.ofNat (c.toNat + 32) else c

/-- `boost::iequals`: case-insensitive string equality (the source only
applies it to ASCII keywords and option names). -/
def iequals (a b : String) : Bool :=
  a.data.map lowerChar == b.data.map lowerChar

/-- Modelled from the spec: `IS_STRING(t) ⇔ t ∈ {CHAR, VARCHAR, TEXT}`
(§3.1; the macro lives in a header outside `src/`). -/
def IS_STRING : SQLTypes → Bool
  | .kCHAR => true
  | .kVARCHAR => true
  | .kTEXT => true
  | _ => false

/-- Modelled from the spec: `IS_NUMBER(t) ⇔ t ∈ {SMALLINT, INT, BIGINT,
FLOAT, DOUBLE, NUMERIC, DECIMAL}` (§3.1). -/
def IS_NUMBER : SQLTypes → Bool
  | .kSMALLINT => true
  | .kINT => true
  | .kBIGINT => true
  | .kFLOAT => true
  | .kDOUBLE => true
  | .kNUMERIC => true
  | .kDECIMAL => true
  | _ => false

/-- The signature of `Analyzer::BinOper::analyze_type_info` (defined outside
`src/`): given the operator and the two operand types it yields the result
type together with the coerced left and right operand types, or fails.  The
embeddings below take it as an explicit parameter. -/
def TypePromotion : Type :=
  SQLOps → SQLTypeInfo → SQLTypeInfo →
    Except String (SQLTypeInfo × SQLTypeInfo × SQLTypeInfo)

/-- `INT16_MIN`. -/
def INT16_MIN : Int := -32768

/-- `INT16_MAX`. -/
def INT16_MAX : Int := 32767

/-- `INT32_MIN`. -/
def INT32_MIN : Int := -2147483648

/-- `INT32_MAX`. -/
def INT32_MAX : Int := 2147483647

/-- `IntLiteral::analyze` (ParserNode.cpp lines 238-255): pick the narrowest
of SMALLINT, INT, BIGINT that holds the value; the literal's value lives in
a C++ `int64_t`. -/
def IntLiteral.analyze (intval : Int) : AExpr :=
  if INT16_MIN ≤ intval ∧ intval ≤ INT16_MAX then
    .Constant { type := .kSMALLINT } false (.smallintval intval)
  else if INT32_MIN ≤ intval ∧ intval ≤ INT32_MAX then
    .Constant { type := .kINT } false (.intval intval)
  else
    .Constant { type := .kBIGINT } false (.bigintval intval)

/-- The integer payload of a `Constant`, if any. -/
def constDatumInt : AExpr → Option Int
  | .Constant _ _ (.smallintval v) => some v
  | .Constant _ _ (.intval v) => some v
  | .Constant _ _ (.bigintval v) => some v
  | _ => none

/-- `OperExpr::analyze` (lines 302-324) with the operands already analyzed:
with no right operand the result is a `UOper` carrying the left operand's
type; with a right operand the promotion rule is consulted and casts are
inserted where the coerced types differ. -/
def OperExpr.analyze (ati : TypePromotion) (optype : SQLOps)
    (left_expr : AExpr) (right : Option (SQLQualifier × AExpr)) :
    Except String AExpr :=
  let left_type := left_expr.get_type_info
  match right with
  | none => .ok (.UOper left_type optype left_expr)
  | some (qual, right_expr) => do
    let right_type := right_expr.get_type_info
    let (result_type, new_left_type, new_right_type) ←
      ati optype left_type right_type
    let left_cast :=
      if left_type ≠ new_left_type then left_expr.add_cast new_left_type
      else left_expr
    let right_cast :=
      if right_type ≠ new_right_type then right_expr.add_cast new_right_type
      else right_expr
    .ok (.BinOper result_type optype qual left_cast right_cast)

/-- `FunctionRef::analyze` (lines 443-484) with the argument already
analyzed.  The outer `Option` marks the one undefined-behavior path of the
source: MIN/MAX/AVG/SUM dereference a null `arg` pointer when the call has
no argument, which has no defined result; every defined path is `some`. -/
def FunctionRef.analyze (name : String) (distinct : Bool)
    (arg : Option AExpr) (num_aggs : Nat) :
    Option (Except String (AExpr × Nat)) :=
  if iequals name "count" then
    some (.ok (.AggExpr { type := .kBIGINT } .kCOUNT arg distinct,
      num_aggs + 1))
  else if iequals name "min" then
    match arg with
    | none => none
    | some a =>
      some (.ok (.AggExpr a.get_type_info .kMIN (some a) false, num_aggs + 1))
  else if iequals name "max" then
    match arg with
    | none => none
    | some a =>
      some (.ok (.AggExpr a.get_type_info .kMAX (some a) false, num_aggs + 1))
  else if iequals name "avg" then
    match arg with
    | none => none
    | some a =>
      some (.ok (.AggExpr a.get_type_info .kAVG (some a) false, num_aggs + 1))
  else if iequals name "sum" then
    match arg with
    | none => none
    | some a =>
      some (.ok (.AggExpr a.get_type_info .kSUM (some a) false, num_aggs + 1))
  else
    some (.error ("invalid function name: " ++ name))

/-- `BetweenExpr::analyze` (lines 365-380) with the three operands already
analyzed.  Note that the source's second `analyze_type_info` call — the one
for the LE (upper-bound) predicate — passes `lower_expr`'s type, not
`upper_expr`'s (line 374). -/
def BetweenExpr.analyze (ati : TypePromotion) (arg_expr lower_expr upper_expr : AExpr)
    (is_not : Bool) : Except String AExpr := do
  let (_, nl1, nr1) ←
    ati .kGE arg_expr.get_type_info lower_expr.get_type_info
  let lower_pred : AExpr :=
    .BinOper { type := .kBOOLEAN } .kGE .kONE
      (arg_expr.add_cast nl1) (lower_expr.add_cast nr1)
  let (_, nl2, nr2) ←
    ati .kLE arg_expr.get_type_info lower_expr.get_type_info
  let upper_pred : AExpr :=
    .BinOper { type := .kBOOLEAN } .kLE .kONE
      (arg_expr.deep_copy.add_cast nl2) (upper_expr.add_cast nr2)
  let result : AExpr :=
    .BinOper { type := .kBOOLEAN } .kAND .kONE lower_pred upper_pred
  .ok (if is_not then .UOper { type := .kBOOLEAN } .kNOT result else result)

/-- Following the spec's words (§4.1, Between): identical to
`BetweenExpr.analyze` except that the LE promotion is computed between the
argument's type and the *upper* bound's type. -/
def BetweenExpr.analyzeSpecLE (ati : TypePromotion)
    (arg_expr lower_expr upper_expr : AExpr) (is_not : Bool) :
    Except String AExpr := do
  let (_, nl1, nr1) ←
    ati .kGE arg_expr.get_type_info lower_expr.get_type_info
  let lower_pred : AExpr :=
    .BinOper { type := .kBOOLEAN } .kGE .kONE
      (arg_expr.add_cast nl1) (lower_expr.add_cast nr1)
  let (_, nl2, nr2) ←
    ati .kLE arg_expr.get_type_info upper_expr.get_type_info
  let upper_pred : AExpr :=
    .BinOper { type := .kBOOLEAN } .kLE .kONE
      (arg_expr.deep_copy.add_cast nl2) (upper_expr.add_cast nr2)
  let result : AExpr :=
    .BinOper { type := .kBOOLEAN } .kAND .kONE lower_pred upper_pred
  .ok (if is_not then .UOper { type := .kBOOLEAN } .kNOT result else result)

/-- Catalog column metadata (`ColumnDescriptor`), restricted to the fields
the analyzer reads. -/
structure ColumnDescriptor where
  columnId : Int
  columnName : String
  columnType : SQLTypeInfo
  compression : EncodingType
  comp_param : Int
  deriving DecidableEq, Repr

/-- A range-table entry (`Analyzer::RangeTblEntry`): range variable, table
id, and the table's columns.  The source's `get_column_desc(catalog, name)`
catalog lookup is represented by the entry's own column list. -/
structure RangeTblEntry where
  range_var : String
  table_id : Int
  column_descs : List ColumnDescriptor
  deriving DecidableEq, Repr

/-- `RangeTblEntry::get_column_desc`: the first column of the entry with
the given name. -/
def RangeTblEntry.get_column_desc (rte : RangeTblEntry) (name : String) :
    Option ColumnDescriptor :=
  rte.column_descs.find? (fun cd => cd.columnName = name)

/-- `Analyzer::Query::get_rte_idx` combined with `get_rte`: the first
range-table entry whose range variable matches, with its index. -/
def findRte : List RangeTblEntry → String → Nat → Option (Nat × RangeTblEntry)
  | [], _, _ => none
  | rte :: rest, name, i =>
    if rte.range_var = name then some (i, rte) else findRte rest name (i + 1)

/-- The loop state of the unqualified branch of `ColumnRef::analyze`
(lines 424-436): the column descriptor of the *current* iteration's lookup
(`cd` is reassigned every iteration), the `found` flag, and the recorded
`rte_idx` and `table_id` of the first hit. -/
structure ColumnRefLoopState where
  cd : Option ColumnDescriptor
  found : Bool
  rte_idx : Int
  table_id : Int

/-- The unqualified lookup loop of `ColumnRef::analyze` (lines 425-436),
reproduced exactly: the first hit records the entry, a second hit throws
the ambiguity error, and `cd` always holds the lookup result of the most
recent iteration. -/
def columnRefLoop (column : String) :
    List RangeTblEntry → Int → ColumnRefLoopState →
    Except String ColumnRefLoopState
  | [], _, st => .ok st
  | rte :: rest, i, st =>
    let cd := rte.get_column_desc column
    if cd.isSome ∧ st.found = false then
      columnRefLoop column rest (i + 1)
        { cd := cd, found := true, rte_idx := i, table_id := rte.table_id }
    else if cd.isSome ∧ st.found = true then
      .error ("Column name " ++ column ++ " is ambiguous.")
    else
      columnRefLoop column rest (i + 1) { st with cd := cd }

/-- `ColumnRef::analyze` (lines 407-441).  After the unqualified loop the
source tests `cd == nullptr` — the stale last-iteration lookup — rather
than the `found` flag (line 437), and this embedding reproduces that. -/
def ColumnRef.analyze (rangetable : List RangeTblEntry)
    (table : Option String) (column : Option String) : Except String AExpr :=
  match column with
  | none => .error "invalid column name *."
  | some col =>
    match table with
    | some t =>
      match findRte rangetable t 0 with
      | none =>
        .error ("range variable or table name " ++ t ++ " does not exist.")
      | some (rte_idx, rte) =>
        match rte.get_column_desc col with
        | none => .error ("Column name " ++ col ++ " does not exist.")
        | some cd =>
          .ok (.ColumnVar cd.columnType rte.table_id cd.columnId
            (rte_idx : Int) cd.compression cd.comp_param)
    | none => do
      let st ← columnRefLoop col rangetable 0
        { cd := none, found := false, rte_idx := 0, table_id := 0 }
      match st.cd with
      | none => .error ("Column name " ++ col ++ " does not exist.")
      | some cd =>
        .ok (.ColumnVar cd.columnType st.table_id cd.columnId st.rte_idx
          cd.compression cd.comp_param)

/-- The number of range-table entries that contain the column — the hit
count the specification's resolution rule is stated in terms of. -/
def hitCount (rangetable : List RangeTblEntry) (column : String) : Nat :=
  (rangetable.filter (fun rte => (rte.get_column_desc column).isSome)).length

/-- The WHEN/THEN loop of `CaseExpr::analyze` (lines 513-532): checks each
WHEN for BOOLEAN, folds the running result type over the THEN arms, retypes
NULLT THEN arms in place to the running type, and accumulates the analyzed
pairs in order. -/
def caseLoop (commonStr commonNum : SQLTypeInfo → SQLTypeInfo → SQLTypeInfo) :
    List (AExpr × AExpr) → SQLTypeInfo → List (AExpr × AExpr) →
    Except String (SQLTypeInfo × List (AExpr × AExpr))
  | [], ti, acc => .ok (ti, acc)
  | (e1, e2) :: rest, ti, acc =>
    if e1.get_type_info.type ≠ .kBOOLEAN then
      .error "Only boolean expressions can be used after WHEN."
    else if ti.type = .kNULLT then
      caseLoop commonStr commonNum rest e2.get_type_info (acc ++ [(e1, e2)])
    else if e2.get_type_info.type = .kNULLT then
      caseLoop commonStr commonNum rest ti (acc ++ [(e1, e2.set_type_info ti)])
    else if ti ≠ e2.get_type_info then
      if IS_STRING ti.type ∧ IS_STRING e2.get_type_info.type then
        caseLoop commonStr commonNum rest (commonStr ti e2.get_type_info)
          (acc ++ [(e1, e2)])
      else if IS_NUMBER ti.type ∧ IS_NUMBER e2.get_type_info.type then
        caseLoop commonStr commonNum rest (commonNum ti e2.get_type_info)
          (acc ++ [(e1, e2)])
      else
        .error "expressions in THEN clause must be of the same or compatible types."
    else
      caseLoop commonStr commonNum rest ti (acc ++ [(e1, e2)])

/-- The ELSE reconciliation of `CaseExpr::analyze` (lines 534-546).  Note
there is no branch replacing a NULLT running type with the ELSE arm's type:
a NULLT running type with a typed, non-string, non-NULLT ELSE falls through
to the incompatibility error. -/
def caseElse (commonStr commonNum : SQLTypeInfo → SQLTypeInfo → SQLTypeInfo)
    (ti : SQLTypeInfo) (else_e : AExpr) :
    Except String (SQLTypeInfo × AExpr) :=
  if else_e.get_type_info.type = .kNULLT then
    .ok (ti, else_e.set_type_info ti)
  else if ti ≠ else_e.get_type_info then
    if IS_STRING ti.type ∧ IS_STRING else_e.get_type_info.type then
      .ok (commonStr ti else_e.get_type_info, else_e)
    else if IS_NUMBER ti.type ∧ IS_NUMBER else_e.get_type_info.type then
      .ok (commonNum ti else_e.get_type_info, else_e)
    else
      .error "expressions in ELSE clause must be of the same or compatible types as those in the THEN clauses."
  else
    .ok (ti, else_e)

/-- `CaseExpr::analyze` (lines 507-554) with the WHEN/THEN/ELSE
sub-expressions already analyzed, parameterized by the external
`common_string_type` and `common_numeric_type` promotion functions. -/
def CaseExpr.analyze
    (commonStr commonNum : SQLTypeInfo → SQLTypeInfo → SQLTypeInfo)
    (when_then_list : List (AExpr × AExpr)) (else_expr : Option AExpr) :
    Except String AExpr := do
  let (ti0, expr_pair_list) ←
    caseLoop commonStr commonNum when_then_list { type := .kNULLT } []
  let (ti, else_e) ←
    match else_expr with
    | none => pure (ti0, (none : Option AExpr))
    | some e => do
      let (ti1, e1) ← caseElse commonStr commonNum ti0 e
      pure (ti1, some e1)
  let cast_expr_pair_list :=
    expr_pair_list.map (fun p => (p.1, p.2.add_cast ti))
  let cast_else := else_e.map (fun e => e.add_cast ti)
  .ok (.CaseExpr ti cast_expr_pair_list cast_else)

/-- A target-list entry (`Analyzer::TargetEntry`): result name plus
analyzed expression. -/
structure TargetEntry where
  resname : String
  expr : AExpr

/-- A parse-side ORDER BY item (`Parser::OrderSpec`): a 1-based target
index (`colno`, 0 meaning "given by name") or a column name. -/
structure OrderSpec where
  colno : Int
  column_name : String
  is_desc : Bool
  nulls_first : Bool
  deriving DecidableEq, Repr

/-- An analyzed ORDER BY entry (`Analyzer::OrderEntry`). -/
structure OrderEntry where
  tle_no : Int
  is_desc : Bool
  nulls_first : Bool
  deriving DecidableEq, Repr

/-- The name-search inner loop of `SelectStmt::analyze` (lines 717-728):
starting from counter `k`, the 1-based position of the first target entry
whose `resname` matches. -/
def findResnameNo : List TargetEntry → String → Int → Option Int
  | [], _, _ => none
  | t :: ts, name, k =>
    if t.resname = name then some k else findResnameNo ts name (k + 1)

/-- The ORDER BY resolution loop of `SelectStmt::analyze` (lines 710-732):
a zero `colno` is resolved by name against the target list (unknown name
throws), any other `colno` is used verbatim as the entry's index. -/
def analyzeOrderBy (tlist : List TargetEntry) :
    List OrderSpec → Except String (List OrderEntry)
  | [] => .ok []
  | p :: rest => do
    let tle_no ←
      if p.colno = 0 then
        match findResnameNo tlist p.column_name 1 with
        | some k => Except.ok k
        | none => .error ("invalid name in order by: " ++ p.column_name)
      else
        Except.ok p.colno
    let tail ← analyzeOrderBy tlist rest
    .ok ({ tle_no := tle_no, is_desc := p.is_desc,
           nulls_first := p.nulls_first } :: tail)

/-- A parse-side literal value in an option list, tagged as the source's
`typeid` dispatch distinguishes them. -/
inductive PValue
  | StringLit (stringval : String)
  | IntLit (intval : Int)
  | OtherLit
  deriving DecidableEq, Repr

/-- A `Parser::NameValueAssign` option pair. -/
structure NameValue where
  name : String
  value : PValue
  deriving DecidableEq, Repr

/-- Modelled from the spec: the constant naming the privileged database
(`MAPD_SYSTEM_DB`, §6.2, defined outside `src/`); its concrete spelling is
irrelevant to the claims, which only compare against it. -/
def MAPD_SYSTEM_DB : String := "mapd"

/-- The system-catalog mutations the user/database DDL statements issue
(`Catalog_Namespace::SysCatalog` calls). -/
inductive SysCatAction
  | createUser (name passwd : String) (is_super : Bool)
  | dropUser (name : String)
  | alterUser (name : String) (passwd : Option String)
      (is_super : Option Bool)
  | createDatabase (name : String) (ownerId : Int)
  | dropDatabase (name : String)
  deriving DecidableEq, Repr

/-- The option loop of `CreateUserStmt::execute` (lines 1346-1363),
folding the accumulated password (initially empty) and IS_SUPER flag. -/
def createUserOptions : List NameValue → String → Bool →
    Except String (String × Bool)
  | [], passwd, is_super => .ok (passwd, is_super)
  | p :: rest, passwd, is_super =>
    if iequals p.name "password" then
      match p.value with
      | .StringLit s => createUserOptions rest s is_super
      | _ => .error "Password must be a string literal."
    else if iequals p.name "is_super" then
      match p.value with
      | .StringLit s =>
        if iequals s "true" then createUserOptions rest passwd true
        else if iequals s "false" then createUserOptions rest passwd false
        else .error "Value to IS_SUPER must be TRUE or FALSE."
      | _ => .error "IS_SUPER option must be a string literal."
    else
      .error ("Invalid CREATE USER option " ++ p.name ++
        ".  Should be PASSWORD or IS_SUPER.")

/-- `CreateUserStmt::execute` (lines 1341-1370): options first, then the
missing-password check, then the system-database check, then the catalog
mutation. -/
def CreateUserStmt.execute (currentDB : String) (user_name : String)
    (name_value_list : List NameValue) : Except String SysCatAction := do
  let (passwd, is_super) ← createUserOptions name_value_list "" false
  if passwd = "" then
    .error "Must have a password for CREATE USER."
  else if currentDB ≠ MAPD_SYSTEM_DB then
    .error "Must be in the system database to create users."
  else
    .ok (.createUser user_name passwd is_super)

/-- The option loop of `AlterUserStmt::execute` (lines 1388-1407); the
password and IS_SUPER updates are tri-state (absent means unchanged). -/
def alterUserOptions : List NameValue → Option String → Option Bool →
    Except String (Option String × Option Bool)
  | [], passwd, is_superp => .ok (passwd, is_superp)
  | p :: rest, passwd, is_superp =>
    if iequals p.name "password" then
      match p.value with
      | .StringLit s => alterUserOptions rest (some s) is_superp
      | _ => .error "Password must be a string literal."
    else if iequals p.name "is_super" then
      match p.value with
      | .StringLit s =>
        if iequals s "true" then alterUserOptions rest passwd (some true)
        else if iequals s "false" then alterUserOptions rest passwd (some false)
        else .error "Value to IS_SUPER must be TRUE or FALSE."
      | _ => .error "IS_SUPER option must be a string literal."
    else
      .error ("Invalid CREATE USER option " ++ p.name ++
        ".  Should be PASSWORD or IS_SUPER.")

/-- `AlterUserStmt::execute` (lines 1382-1410).  The session database is
never consulted: after the option loop the statement goes straight to the
catalog mutation. -/
def AlterUserStmt.execute (currentDB : String) (user_name : String)
    (name_value_list : List NameValue) : Except String SysCatAction := do
  let _ := currentDB
  let (passwd, is_superp) ← alterUserOptions name_value_list none none
  .ok (.alterUser user_name passwd is_superp)

/-- `DropUserStmt::execute` (lines 1412-1419). -/
def DropUserStmt.execute (currentDB : String) (user_name : String) :
    Except String SysCatAction :=
  if currentDB ≠ MAPD_SYSTEM_DB then
    .error "Must be in the system database to drop users."
  else
    .ok (.dropUser user_name)

/-- The option loop of `CreateDBStmt::execute` (lines 1314-1328); the
`getUser` parameter stands for `SysCatalog::getMetadataForUser`, returning
the user id when the user exists. -/
def createDBOptions (getUser : String → Option Int) :
    List NameValue → Int → Except String Int
  | [], ownerId => .ok ownerId
  | p :: rest, _ownerId =>
    if iequals p.name "owner" then
      match p.value with
      | .StringLit s =>
        match getUser s with
        | none => .error ("User " ++ s ++ " does not exist.")
        | some uid => createDBOptions getUser rest uid
      | _ => .error "Owner name must be a string literal."
    else
      .error ("Invalid CREATE DATABASE option " ++ p.name ++
        ". Only OWNER supported.")

/-- `CreateDBStmt::execute` (lines 1307-1330): system-database check first,
then the option loop, then the catalog mutation.  `currentUserId` stands
for `catalog.get_currentUser().userId`. -/
def CreateDBStmt.execute (currentDB : String) (currentUserId : Int)
    (getUser : String → Option Int) (db_name : String)
    (name_value_list : List NameValue) : Except String SysCatAction :=
  if currentDB ≠ MAPD_SYSTEM_DB then
    .error "Must be in the system database to create databases."
  else do
    let ownerId ← createDBOptions getUser name_value_list currentUserId
    .ok (.createDatabase db_name ownerId)

/-- `DropDBStmt::execute` (lines 1332-1339). -/
def DropDBStmt.execute (currentDB : String) (db_name : String) :
    Except String SysCatAction :=
  if currentDB ≠ MAPD_SYSTEM_DB then
    .error "Must be in the system database to drop databases."
  else
    .ok (.dropDatabase db_name)

/-- A `Parser::CompressDef` encoding clause: keyword and bit parameter.
The parameter comes from the parser's nonnegative integer token, hence
`Nat`. -/
structure CompressDef where
  encoding_name : String
  encoding_param : Nat
  deriving DecidableEq, Repr

/-- The per-column encoding validation of `CreateTableStmt::execute`
(lines 1077-1111), producing the stored encoding tag and `comp_param`. -/
def compressionOf (notnull : Bool) (compression : Option CompressDef) :
    Except String (EncodingType × Nat) :=
  match compression with
  | none => .ok (.kENCODING_NONE, 0)
  | some comp =>
    if iequals comp.encoding_name "fixed" then
      if comp.encoding_param = 0 ∨ comp.encoding_param % 8 ≠ 0 ∨
          48 < comp.encoding_param then
        .error "Must specify number of bits as 8, 16, 24, 32 or 48 as the parameter to fixed-bits encoding."
      else
        .ok (.kENCODING_FIXED, comp.encoding_param)
    else if iequals comp.encoding_name "rl" then
      .ok (.kENCODING_RL, 0)
    else if iequals comp.encoding_name "diff" then
      .ok (.kENCODING_DIFF, 0)
    else if iequals comp.encoding_name "dict" then
      .ok (.kENCODING_DICT, 0)
    else if iequals comp.encoding_name "sparse" then
      if notnull then
        .error "Cannot do sparse column encoding on a NOT NULL column."
      else if comp.encoding_param = 0 ∨ comp.encoding_param % 8 ≠ 0 ∨
          48 < comp.encoding_param then
        .error "Must specify number of bits as 8, 16, 24, 32 or 48 as the parameter to sparse-column encoding."
      else
        .ok (.kENCODING_SPARSE, comp.encoding_param)
    else
      .error ("Invalid column compression scheme " ++ comp.encoding_name)

/-- The single-arm reconciliation step of the CASE result type, as both the
claim and the source's WHEN/THEN loop state it: a NULLT running type takes
the arm's type, a NULLT arm leaves the running type, differing strings
combine via `common_string_type`, differing numbers via
`common_numeric_type`, and any other differing pair is an error. -/
def caseCombineTy (commonStr commonNum : SQLTypeInfo → SQLTypeInfo → SQLTypeInfo)
    (ti armTi : SQLTypeInfo) : Except String SQLTypeInfo :=
  if ti.type = .kNULLT then .ok armTi
  else if armTi.type = .kNULLT then .ok ti
  else if ti ≠ armTi then
    if IS_STRING ti.type ∧ IS_STRING armTi.type then .ok (commonStr ti armTi)
    else if IS_NUMBER ti.type ∧ IS_NUMBER armTi.type then
      .ok (commonNum ti armTi)
    else .error "incompatible types"
  else .ok ti

/-- Left fold of `caseCombineTy` over a list of arm types. -/
def caseTyFold (commonStr commonNum : SQLTypeInfo → SQLTypeInfo → SQLTypeInfo) :
    List SQLTypeInfo → SQLTypeInfo → Except String SQLTypeInfo
  | [], ti => .ok ti
  | t :: ts, ti =>
    match caseCombineTy commonStr commonNum ti t with
    | .error e => .error e
    | .ok ti2 => caseTyFold commonStr commonNum ts ti2

/-- Following the claim's words: the CASE result type as the fold of a
running type starting at NULLT over the THEN arms *and the ELSE arm*, with
the same reconciliation rule for every arm. -/
def caseClaimTy (commonStr commonNum : SQLTypeInfo → SQLTypeInfo → SQLTypeInfo)
    (thenTys : List SQLTypeInfo) (elseTy : Option SQLTypeInfo) :
    Except String SQLTypeInfo :=
  match caseTyFold commonStr commonNum thenTys { type := .kNULLT } with
  | .error e => .error e
  | .ok t =>
    match elseTy with
    | none => .ok t
    | some et => caseCombineTy commonStr commonNum t et

/-- The ELSE reconciliation step at the type level, matching the source
(lines 536-545): unlike the THEN step there is no branch replacing a NULLT
running type with the ELSE arm's type. -/
def caseElseTy (commonStr commonNum : SQLTypeInfo → SQLTypeInfo → SQLTypeInfo)
    (ti elseTi : SQLTypeInfo) : Except String SQLTypeInfo :=
  if elseTi.type = .kNULLT then .ok ti
  else if ti ≠ elseTi then
    if IS_STRING ti.type ∧ IS_STRING elseTi.type then .ok (commonStr ti elseTi)
    else if IS_NUMBER ti.type ∧ IS_NUMBER elseTi.type then
      .ok (commonNum ti elseTi)
    else .error "incompatible types"
  else .ok ti

/-- The CASE result type as the source computes it: fold over the THEN
arms, then the asymmetric ELSE step. -/
def caseResultTy (commonStr commonNum : SQLTypeInfo → SQLTypeInfo → SQLTypeInfo)
    (thenTys : List SQLTypeInfo) (elseTy : Option SQLTypeInfo) :
    Except String SQLTypeInfo :=
  match caseTyFold commonStr commonNum thenTys { type := .kNULLT } with
  | .error e => .error e
  | .ok t =>
    match elseTy with
    | none => .ok t
    | some et => caseElseTy commonStr commonNum t et

theorem add_cast_type (e : AExpr) (ti : SQLTypeInfo) :
    (e.add_cast ti).get_type_info = ti := by
  unfold AExpr.add_cast
  split
  · next h => exact h
  · rfl

/-- C8: an integer literal analyzes to a `Constant` of the narrowest of
SMALLINT, INT, BIGINT containing the value — SMALLINT on
`[-2^15, 2^15-1]`, INT on `[-2^31, 2^31-1]` outside the SMALLINT range,
BIGINT otherwise — and the stored datum equals the literal's value. -/
theorem intLiteral_narrowest_type (v : Int)
    (h1 : -(2 ^ 63) ≤ v) (h2 : v ≤ 2 ^ 63 - 1) :
    ((-(2 ^ 15) ≤ v ∧ v ≤ 2 ^ 15 - 1) →
      IntLiteral.analyze v =
        .Constant { type := .kSMALLINT } false (.smallintval v)) ∧
    ((-(2 ^ 31) ≤ v ∧ v ≤ 2 ^ 31 - 1) ∧ ¬(-(2 ^ 15) ≤ v ∧ v ≤ 2 ^ 15 - 1) →
      IntLiteral.analyze v = .Constant { type := .kINT } false (.intval v)) ∧
    (¬(-(2 ^ 31) ≤ v ∧ v ≤ 2 ^ 31 - 1) →
      IntLiteral.analyze v =
        .Constant { type := .kBIGINT } false (.bigintval v)) ∧
    constDatumInt (IntLiteral.analyze v) = some v := by
  have e15 : -(2 ^ 15 : Int) = -32768 ∧ (2 ^ 15 - 1 : Int) = 32767 := by
    norm_num
  have e31 : -(2 ^ 31 : Int) = -2147483648 ∧
      (2 ^ 31 - 1 : Int) = 2147483647 := by norm_num
  rw [e15.1, e15.2, e31.1, e31.2]
  unfold IntLiteral.analyze INT16_MIN INT16_MAX INT32_MIN INT32_MAX
  split_ifs with hs hi
  · exact ⟨fun _ => rfl, fun h => absurd hs h.2, fun h => absurd ⟨by omega, by omega⟩ h,
      by simp [constDatumInt]⟩
  · exact ⟨fun h => absurd h hs, fun _ => rfl, fun h => absurd hi h,
      by simp [constDatumInt]⟩
  · exact ⟨fun h => absurd h hs, fun h => absurd h.1 hi, fun _ => rfl,
      by simp [constDatumInt]⟩

/-- Witness for `intLiteral_narrowest_type` at the literal 40000 (the S2
scenario): it is INT-typed. -/
theorem intLiteral_narrowest_type_witness :
    IntLiteral.analyze 40000 = .Constant { type := .kINT } false (.intval 40000) :=
  (intLiteral_narrowest_type 40000 (by norm_num) (by norm_num)).2.1
    ⟨⟨by norm_num, by norm_num⟩, by norm_num⟩

/-- C9: a unary `OperExpr` (no right operand) analyzes without any type
check to a `UOper` carrying the operand's type; in particular unary NOT on
a non-BOOLEAN operand succeeds and yields a non-BOOLEAN expression. -/
theorem operExpr_unary_no_typecheck (ati : TypePromotion) (optype : SQLOps)
    (left_expr : AExpr) :
    OperExpr.analyze ati optype left_expr none =
      .ok (.UOper left_expr.get_type_info optype left_expr) ∧
    (∀ e, OperExpr.analyze ati optype left_expr none = .ok e →
      e.get_type_info = left_expr.get_type_info) ∧
    (left_expr.get_type_info.type ≠ .kBOOLEAN →
      ∀ e, OperExpr.analyze ati optype left_expr none = .ok e →
        e.get_type_info.type ≠ .kBOOLEAN) := by
  refine ⟨rfl, ?_, ?_⟩
  · intro e he
    have hx : AExpr.UOper left_expr.get_type_info optype left_expr = e := by
      simpa [OperExpr.analyze] using he
    rw [← hx]
    rfl
  · intro hb e he
    have hx : AExpr.UOper left_expr.get_type_info optype left_expr = e := by
      simpa [OperExpr.analyze] using he
    rw [← hx]
    exact hb

/-- Witness for `operExpr_unary_no_typecheck`: NOT applied to a SMALLINT
constant succeeds with a SMALLINT (non-BOOLEAN) result. -/
theorem operExpr_unary_no_typecheck_witness :
    OperExpr.analyze (fun _ l r => .ok ({ type := .kBOOLEAN }, l, r)) .kNOT
        (.Constant { type := .kSMALLINT } false (.smallintval 1)) none =
      .ok (.UOper { type := .kSMALLINT } .kNOT
        (.Constant { type := .kSMALLINT } false (.smallintval 1))) ∧
    (AExpr.UOper { type := .kSMALLINT } .kNOT
        (.Constant { type := .kSMALLINT } false
          (.smallintval 1))).get_type_info.type ≠ .kBOOLEAN :=
  ⟨(operExpr_unary_no_typecheck _ .kNOT _).1,
   (operExpr_unary_no_typecheck (fun _ l r => .ok ({ type := .kBOOLEAN }, l, r))
       .kNOT (.Constant { type := .kSMALLINT } false (.smallintval 1))).2.2
     (by simp [AExpr.get_type_info]) _
     (operExpr_unary_no_typecheck _ .kNOT _).1⟩

/-- C7: `FunctionRef::analyze` recognizes exactly COUNT, MIN, MAX, AVG and
SUM case-insensitively; COUNT yields BIGINT, accepts an absent argument
and carries the parse node's DISTINCT flag, the other four inherit the
argument's type and carry `is_distinct = false`; every other name fails
with the invalid-function error; every success increments `num_aggs` by
exactly one. -/
theorem functionRef_aggregates (name : String) (distinct : Bool)
    (arg : Option AExpr) (n : Nat) :
    (iequals name "count" = true →
      FunctionRef.analyze name distinct arg n =
        some (.ok (.AggExpr { type := .kBIGINT } .kCOUNT arg distinct, n + 1))) ∧
    (iequals name "count" = false → iequals name "min" = true →
      ∀ a, arg = some a →
        FunctionRef.analyze name distinct arg n =
          some (.ok (.AggExpr a.get_type_info .kMIN (some a) false, n + 1))) ∧
    (iequals name "count" = false → iequals name "min" = false →
      iequals name "max" = true → ∀ a, arg = some a →
        FunctionRef.analyze name distinct arg n =
          some (.ok (.AggExpr a.get_type_info .kMAX (some a) false, n + 1))) ∧
    (iequals name "count" = false → iequals name "min" = false →
      iequals name "max" = false → iequals name "avg" = true →
      ∀ a, arg = some a →
        FunctionRef.analyze name distinct arg n =
          some (.ok (.AggExpr a.get_type_info .kAVG (some a) false, n + 1))) ∧
    (iequals name "count" = false → iequals name "min" = false →
      iequals name "max" = false → iequals name "avg" = false →
      iequals name "sum" = true → ∀ a, arg = some a →
        FunctionRef.analyze name distinct arg n =
          some (.ok (.AggExpr a.get_type_info .kSUM (some a) false, n + 1))) ∧
    (iequals name "count" = false → iequals name "min" = false →
      iequals name "max" = false → iequals name "avg" = false →
      iequals name "sum" = false →
        FunctionRef.analyze name distinct arg n =
          some (.error ("invalid function name: " ++ name))) ∧
    (∀ r m, FunctionRef.analyze name distinct arg n = some (.ok (r, m)) →
      m = n + 1) := by
  refine ⟨?_, ?_, ?_, ?_, ?_, ?_, ?_⟩
  · intro hc
    simp [FunctionRef.analyze, hc]
  · intro hc hm a ha
    subst ha
    simp [FunctionRef.analyze, hc, hm]
  · intro hc hm hx a ha
    subst ha
    simp [FunctionRef.analyze, hc, hm, hx]
  · intro hc hm hx hv a ha
    subst ha
    simp [FunctionRef.analyze, hc, hm, hx, hv]
  · intro hc hm hx hv hs a ha
    subst ha
    simp [FunctionRef.analyze, hc, hm, hx, hv, hs]
  · intro hc hm hx hv hs
    simp [FunctionRef.analyze, hc, hm, hx, hv, hs]
  · intro r m h
    unfold FunctionRef.analyze at h
    split_ifs at h <;> (try cases arg) <;> simp_all

/-- Witness for `functionRef_aggregates`: `Sum(x)` on an INT column
analyzes to an INT-typed SUM aggregate with the counter bumped from 0
to 1. -/
theorem functionRef_aggregates_witness :
    FunctionRef.analyze "Sum" false
        (some (.ColumnVar { type := .kINT } 1 1 0 .kENCODING_NONE 0)) 0 =
      some (.ok (.AggExpr { type := .kINT } .kSUM
        (some (.ColumnVar { type := .kINT } 1 1 0 .kENCODING_NONE 0)) false, 1)) :=
  (functionRef_aggregates "Sum" false
      (some (.ColumnVar { type := .kINT } 1 1 0 .kENCODING_NONE 0)) 0).2.2.2.2.1
    (by decide) (by decide) (by decide) (by decide) (by decide) _ rfl

/-- C6: a FIXED or SPARSE encoding clause is accepted exactly when its bit
parameter is one of 8, 16, 24, 32, 40, 48; SPARSE additionally rejects
NOT NULL columns; on success the stored tag is FIXED resp. SPARSE with
`comp_param` equal to the bit count. -/
theorem createTable_encoding_bits (bits : Nat) (notnull : Bool) :
    (compressionOf notnull (some ⟨"FIXED", bits⟩) = .ok (.kENCODING_FIXED, bits) ↔
      bits = 8 ∨ bits = 16 ∨ bits = 24 ∨ bits = 32 ∨ bits = 40 ∨ bits = 48) ∧
    (¬(bits = 8 ∨ bits = 16 ∨ bits = 24 ∨ bits = 32 ∨ bits = 40 ∨ bits = 48) →
      compressionOf notnull (some ⟨"FIXED", bits⟩) =
        .error "Must specify number of bits as 8, 16, 24, 32 or 48 as the parameter to fixed-bits encoding.") ∧
    (compressionOf true (some ⟨"SPARSE", bits⟩) =
      .error "Cannot do sparse column encoding on a NOT NULL column.") ∧
    (compressionOf false (some ⟨"SPARSE", bits⟩) = .ok (.kENCODING_SPARSE, bits) ↔
      bits = 8 ∨ bits = 16 ∨ bits = 24 ∨ bits = 32 ∨ bits = 40 ∨ bits = 48) ∧
    (¬(bits = 8 ∨ bits = 16 ∨ bits = 24 ∨ bits = 32 ∨ bits = 40 ∨ bits = 48) →
      compressionOf false (some ⟨"SPARSE", bits⟩) =
        .error "Must specify number of bits as 8, 16, 24, 32 or 48 as the parameter to sparse-column encoding.") := by
  have hfix : iequals "FIXED" "fixed" = true := by decide
  have hs1 : iequals "SPARSE" "fixed" = false := by decide
  have hs2 : iequals "SPARSE" "rl" = false := by decide
  have hs3 : iequals "SPARSE" "diff" = false := by decide
  have hs4 : iequals "SPARSE" "dict" = false := by decide
  have hs5 : iequals "SPARSE" "sparse" = true := by decide
  refine ⟨?_, ?_, ?_, ?_, ?_⟩
  · simp only [compressionOf, hfix, if_true]
    split_ifs with hb
    · constructor
      · intro h
        exact absurd h (by simp)
      · intro h
        omega
    · constructor
      · intro _
        omega
      · intro _
        rfl
  · intro h
    simp only [compressionOf, hfix, if_true]
    split_ifs with hb
    · rfl
    · omega
  · simp [compressionOf, hs1, hs2, hs3, hs4, hs5]
  · simp only [compressionOf, hs1, hs2, hs3, hs4, hs5, if_false, if_true,
      Bool.false_eq_true]
    split_ifs with hb
    · constructor
      · intro h
        exact absurd h (by simp)
      · intro h
        omega
    · constructor
      · intro _
        omega
      · intro _
        rfl
  · intro h
    simp only [compressionOf, hs1, hs2, hs3, hs4, hs5, if_false, if_true,
      Bool.false_eq_true]
    split_ifs with hb
    · rfl
    · omega

/-- Witness for `createTable_encoding_bits` at 16 bits (the S6 scenario):
`FIXED(16)` is stored as FIXED with `comp_param = 16`, and 9 is rejected. -/
theorem createTable_encoding_bits_witness :
    compressionOf false (some ⟨"FIXED", 16⟩) = .ok (.kENCODING_FIXED, 16) ∧
    compressionOf false (some ⟨"FIXED", 9⟩) =
      .error "Must specify number of bits as 8, 16, 24, 32 or 48 as the parameter to fixed-bits encoding." :=
  ⟨(createTable_encoding_bits 16 false).1.mpr (by omega),
   (createTable_encoding_bits 9 false).2.1 (by omega)⟩

/-- The identity promotion, used to probe which operand types
`BetweenExpr::analyze` passes to the promotion rule: it returns BOOLEAN and
keeps both operand types unchanged, so any cast in the output names the
exact type the analyzer consulted. -/
def probePromotion : TypePromotion :=
  fun _ l r => .ok ({ type := .kBOOLEAN }, l, r)

/-- C1: evaluation of `BetweenExpr::analyze` at a BETWEEN whose lower bound
is SMALLINT and whose upper bound is DOUBLE, under the identity promotion.
The source derives the LE coercion from the *lower* bound's type
(line 374), so the DOUBLE upper operand is cast to SMALLINT; the variant
that follows the spec's words leaves it uncast. -/
theorem between_le_promotion_uses_lower_type :
    BetweenExpr.analyze probePromotion
        (.Constant { type := .kSMALLINT } false (.smallintval 1))
        (.Constant { type := .kSMALLINT } false (.smallintval 0))
        (.Constant { type := .kDOUBLE } false .otherval) false =
      .ok (.BinOper { type := .kBOOLEAN } .kAND .kONE
        (.BinOper { type := .kBOOLEAN } .kGE .kONE
          (.Constant { type := .kSMALLINT } false (.smallintval 1))
          (.Constant { type := .kSMALLINT } false (.smallintval 0)))
        (.BinOper { type := .kBOOLEAN } .kLE .kONE
          (.Constant { type := .kSMALLINT } false (.smallintval 1))
          (.UOper { type := .kSMALLINT } .kCAST
            (.Constant { type := .kDOUBLE } false .otherval)))) ∧
    BetweenExpr.analyzeSpecLE probePromotion
        (.Constant { type := .kSMALLINT } false (.smallintval 1))
        (.Constant { type := .kSMALLINT } false (.smallintval 0))
        (.Constant { type := .kDOUBLE } false .otherval) false =
      .ok (.BinOper { type := .kBOOLEAN } .kAND .kONE
        (.BinOper { type := .kBOOLEAN } .kGE .kONE
          (.Constant { type := .kSMALLINT } false (.smallintval 1))
          (.Constant { type := .kSMALLINT } false (.smallintval 0)))
        (.BinOper { type := .kBOOLEAN } .kLE .kONE
          (.Constant { type := .kSMALLINT } false (.smallintval 1))
          (.Constant { type := .kDOUBLE } false .otherval))) :=
  ⟨rfl, rfl⟩

/-- A range table for C2: the first entry owns column `a`, the second (and
last) entry does not. -/
def sampleRangeTable : List RangeTblEntry :=
  [{ range_var := "r", table_id := 10,
     column_descs := [⟨1, "a", { type := .kINT }, .kENCODING_NONE, 0⟩] },
   { range_var := "s", table_id := 11,
     column_descs := [⟨1, "c", { type := .kINT }, .kENCODING_NONE, 0⟩] }]

/-- C2: evaluation of the unqualified `ColumnRef::analyze` on a range table
in which exactly one entry — not the last — contains the column: the stale
`cd` test of line 437 raises the does-not-exist error instead of producing
a `ColumnVar`. -/
theorem columnRef_unqualified_single_hit_error :
    hitCount sampleRangeTable "a" = 1 ∧
    ColumnRef.analyze sampleRangeTable none (some "a") =
      .error "Column name a does not exist." :=
  ⟨rfl, rfl⟩

/-- C3 counterexample: executed outside the system database, ALTER USER
raises no PermissionError and issues its catalog mutation — the source
(lines 1382-1410) never consults the session database. -/
theorem alterUser_no_system_db_check :
    "otherdb" ≠ MAPD_SYSTEM_DB ∧
    AlterUserStmt.execute "otherdb" "u"
        [{ name := "PASSWORD", value := .StringLit "secret" }] =
      .ok (.alterUser "u" (some "secret") none) := by
  refine ⟨by decide, ?_⟩
  rfl

/-- C3 (amended): CREATE DATABASE, DROP DATABASE, DROP USER, and — once its
option list parses and a nonempty password was supplied — CREATE USER all
raise the system-database PermissionError outside the system database and
perform no catalog mutation; ALTER USER performs no such check and issues
its mutation regardless of the session database. -/
theorem userDDL_requires_system_db (db : String) (h : db ≠ MAPD_SYSTEM_DB) :
    (∀ uid getUser dbname nvl,
      CreateDBStmt.execute db uid getUser dbname nvl =
        .error "Must be in the system database to create databases.") ∧
    (∀ dbname, DropDBStmt.execute db dbname =
      .error "Must be in the system database to drop databases.") ∧
    (∀ uname, DropUserStmt.execute db uname =
      .error "Must be in the system database to drop users.") ∧
    (∀ uname nvl passwd issuper,
      createUserOptions nvl "" false = .ok (passwd, issuper) → passwd ≠ "" →
        CreateUserStmt.execute db uname nvl =
          .error "Must be in the system database to create users.") ∧
    (∀ uname nvl act, AlterUserStmt.execute db uname nvl = .ok act →
      ∃ pw sup, act = .alterUser uname pw sup) := by
  refine ⟨?_, ?_, ?_, ?_, ?_⟩
  · intro uid getUser dbname nvl
    simp [CreateDBStmt.execute, h]
  · intro dbname
    simp [DropDBStmt.execute, h]
  · intro uname
    simp [DropUserStmt.execute, h]
  · intro uname nvl passwd issuper hopts hpw
    simp [CreateUserStmt.execute, hopts, bind, Except.bind, hpw, h]
  · intro uname nvl act hact
    unfold AlterUserStmt.execute at hact
    cases hopts : alterUserOptions nvl none none with
    | error e => simp [hopts, bind, Except.bind] at hact
    | ok pr =>
      simp [hopts, bind, Except.bind] at hact
      exact ⟨pr.1, pr.2, hact.symm⟩

/-- Witness for `userDDL_requires_system_db` in the non-system database
`otherdb`. -/
theorem userDDL_requires_system_db_witness :
    DropUserStmt.execute "otherdb" "bob" =
      .error "Must be in the system database to drop users." :=
  (userDDL_requires_system_db "otherdb" (by decide)).2.2.1 "bob"

/-- Helper: the accumulated password of the CREATE USER option loop is
unchanged when no list entry names the PASSWORD option. -/
theorem createUserOptions_no_password_preserves :
    ∀ (nvl : List NameValue) (pw : String) (sup : Bool) (pw' : String)
      (sup' : Bool),
      (∀ p ∈ nvl, iequals p.name "password" = false) →
      createUserOptions nvl pw sup = .ok (pw', sup') → pw' = pw := by
  intro nvl
  induction nvl with
  | nil =>
    intro pw sup pw' sup' _ h
    simp [createUserOptions] at h
    exact h.1.symm
  | cons p rest ih =>
    intro pw sup pw' sup' hnp h
    have hp : iequals p.name "password" = false := hnp p (by simp)
    have hrest : ∀ q ∈ rest, iequals q.name "password" = false :=
      fun q hq => hnp q (by simp [hq])
    by_cases hsup : iequals p.name "is_super" = true
    · cases hv : p.value with
      | StringLit s =>
        by_cases ht : iequals s "true" = true
        · have hstep : createUserOptions (p :: rest) pw sup =
              createUserOptions rest pw true := by
            simp [createUserOptions, hp, hsup, hv, ht]
          rw [hstep] at h
          exact ih pw true pw' sup' hrest h
        · by_cases hf : iequals s "false" = true
          · have hstep : createUserOptions (p :: rest) pw sup =
                createUserOptions rest pw false := by
              simp [createUserOptions, hp, hsup, hv, ht, hf]
            rw [hstep] at h
            exact ih pw false pw' sup' hrest h
          · have hstep : createUserOptions (p :: rest) pw sup =
                .error "Value to IS_SUPER must be TRUE or FALSE." := by
              simp [createUserOptions, hp, hsup, hv, ht, hf]
            rw [hstep] at h
            simp at h
      | IntLit v =>
        have hstep : createUserOptions (p :: rest) pw sup =
            .error "IS_SUPER option must be a string literal." := by
          simp [createUserOptions, hp, hsup, hv]
        rw [hstep] at h
        simp at h
      | OtherLit =>
        have hstep : createUserOptions (p :: rest) pw sup =
            .error "IS_SUPER option must be a string literal." := by
          simp [createUserOptions, hp, hsup, hv]
        rw [hstep] at h
        simp at h
    · have hstep : createUserOptions (p :: rest) pw sup =
          .error ("Invalid CREATE USER option " ++ p.name ++
            ".  Should be PASSWORD or IS_SUPER.") := by
        simp [createUserOptions, hp, hsup]
      rw [hstep] at h
      simp at h

/-- C10: CREATE USER validates its options before the session-database
check: an option-list error surfaces as-is whatever the database; an empty
accumulated password yields the missing-password error, not
PermissionError; and a list with no PASSWORD option always leaves the
accumulated password empty. -/
theorem createUser_validates_options_first (db uname : String)
    (nvl : List NameValue) :
    (∀ m, createUserOptions nvl "" false = .error m →
      CreateUserStmt.execute db uname nvl = .error m) ∧
    (∀ issuper, createUserOptions nvl "" false = .ok ("", issuper) →
      CreateUserStmt.execute db uname nvl =
        .error "Must have a password for CREATE USER.") ∧
    ((∀ p ∈ nvl, iequals p.name "password" = false) →
      ∀ passwd issuper, createUserOptions nvl "" false = .ok (passwd, issuper) →
        passwd = "") := by
  refine ⟨?_, ?_, ?_⟩
  · intro m hm
    simp [CreateUserStmt.execute, hm, bind, Except.bind]
  · intro issuper hok
    simp [CreateUserStmt.execute, hok, bind, Except.bind]
  · intro hnp passwd issuper hok
    exact createUserOptions_no_password_preserves nvl "" false passwd issuper
      hnp hok

/-- Witness for `createUser_validates_options_first`: with only an IS_SUPER
option and outside the system database, the error is the missing-password
one. -/
theorem createUser_validates_options_first_witness :
    CreateUserStmt.execute "otherdb" "u"
        [{ name := "IS_SUPER", value := .StringLit "true" }] =
      .error "Must have a password for CREATE USER." :=
  (createUser_validates_options_first "otherdb" "u"
      [{ name := "IS_SUPER", value := .StringLit "true" }]).2.1 true rfl

/-- Helper: a successful result of the ORDER BY name search lies between
the starting counter and the counter plus the number of remaining target
entries. -/
theorem findResnameNo_bounds :
    ∀ (ts : List TargetEntry) (name : String) (k j : Int),
      findResnameNo ts name k = some j → k ≤ j ∧ j < k + ts.length := by
  intro ts
  induction ts with
  | nil =>
    intro name k j h
    simp [findResnameNo] at h
  | cons t rest ih =>
    intro name k j h
    unfold findResnameNo at h
    split_ifs at h with heq
    · simp at h
      subst h
      refine ⟨le_refl k, ?_⟩
      simp only [List.length_cons]
      push_cast
      omega
    · have := ih name (k + 1) j h
      constructor
      · omega
      · simp only [List.length_cons]
        push_cast
        omega

/-- A one-entry target list used to exercise the ORDER BY resolution. -/
def sampleTargetList : List TargetEntry :=
  [{ resname := "a", expr := .Constant { type := .kINT } false (.intval 0) }]

/-- C4 counterexample: a numeric ORDER BY index is stored verbatim with no
range check, so the entry `ORDER BY 5` over a one-entry target list yields
`tle_index = 5`, outside `[1, |targetlist|]`. -/
theorem orderBy_numeric_index_unchecked :
    analyzeOrderBy sampleTargetList
        [{ colno := 5, column_name := "", is_desc := false,
           nulls_first := false }] =
      .ok [{ tle_no := 5, is_desc := false, nulls_first := false }] ∧
    ((sampleTargetList.length : Int) < 5) :=
  ⟨rfl, by norm_num [sampleTargetList]⟩

/-- C4 (amended): in a successfully analyzed ORDER BY list, every entry
given as a column name (`colno = 0`) resolves to a `tle_index` in
`[1, |targetlist|]`, while an entry given as a numeric index keeps the
given number unchanged, with no range check. -/
theorem orderBy_tle_index_resolution (tlist : List TargetEntry) :
    ∀ (ob : List OrderSpec) (res : List OrderEntry),
      analyzeOrderBy tlist ob = .ok res →
      List.Forall₂ (fun (p : OrderSpec) (e : OrderEntry) =>
        (p.colno = 0 → 1 ≤ e.tle_no ∧ e.tle_no ≤ tlist.length) ∧
        (p.colno ≠ 0 → e.tle_no = p.colno) ∧
        e.is_desc = p.is_desc ∧ e.nulls_first = p.nulls_first) ob res := by
  intro ob
  induction ob with
  | nil =>
    intro res h
    simp [analyzeOrderBy] at h
    subst h
    exact List.Forall₂.nil
  | cons p rest ih =>
    intro res h
    unfold analyzeOrderBy at h
    split_ifs at h with hc
    · cases hfind : findResnameNo tlist p.column_name 1 with
      | none =>
        rw [hfind] at h
        simp [bind, Except.bind] at h
      | some k =>
        rw [hfind] at h
        simp only [bind, Except.bind] at h
        cases htail : analyzeOrderBy tlist rest with
        | error e => rw [htail] at h; simp at h
        | ok tail =>
          rw [htail] at h
          simp at h
          subst h
          have hb := findResnameNo_bounds tlist p.column_name 1 k hfind
          refine List.Forall₂.cons ?_ (ih tail htail)
          refine ⟨fun _ => ⟨hb.1, ?_⟩, fun hne => absurd hc hne, rfl, rfl⟩
          show k ≤ (tlist.length : Int)
          omega
    · simp only [bind, Except.bind] at h
      cases htail : analyzeOrderBy tlist rest with
      | error e => rw [htail] at h; simp at h
      | ok tail =>
        rw [htail] at h
        simp at h
        subst h
        refine List.Forall₂.cons ?_ (ih tail htail)
        exact ⟨fun h0 => absurd h0 hc, fun _ => rfl, rfl, rfl⟩

/-- Witness for `orderBy_tle_index_resolution`: `ORDER BY a` over the
one-entry target list resolves to index 1, which is in range. -/
theorem orderBy_tle_index_resolution_witness :
    List.Forall₂ (fun (p : OrderSpec) (e : OrderEntry) =>
      (p.colno = 0 → 1 ≤ e.tle_no ∧ e.tle_no ≤ sampleTargetList.length) ∧
      (p.colno ≠ 0 → e.tle_no = p.colno) ∧
      e.is_desc = p.is_desc ∧ e.nulls_first = p.nulls_first)
      [{ colno := 0, column_name := "a", is_desc := false,
         nulls_first := false }]
      [{ tle_no := 1, is_desc := false, nulls_first := false }] :=
  orderBy_tle_index_resolution sampleTargetList
    [{ colno := 0, column_name := "a", is_desc := false,
       nulls_first := false }]
    [{ tle_no := 1, is_desc := false, nulls_first := false }] rfl

/-- A trivial common-type function (first argument wins), used to
instantiate the external promotion parameters on concrete inputs. -/
def idCommon : SQLTypeInfo → SQLTypeInfo → SQLTypeInfo := fun a _ => a

/-- A BOOLEAN constant. -/
def boolConst : AExpr := .Constant { type := .kBOOLEAN } false .otherval

/-- A SMALLINT constant. -/
def smallConst : AExpr := .Constant { type := .kSMALLINT } false (.smallintval 1)

/-- A NULL literal constant (type NULLT). -/
def nullConst : AExpr := .Constant { type := .kNULLT } true .otherval

/-- C5 counterexample: on `CASE WHEN b THEN NULL ELSE 1 END` the running
type after the THEN arms is NULLT, and the source's ELSE reconciliation
(lines 536-545) has no branch replacing a NULLT running type by the ELSE
arm's type, so analysis fails — while the claim's uniform fold over the
THEN arms and the ELSE arm succeeds with SMALLINT. -/
theorem caseExpr_else_nullt_counterexample :
    CaseExpr.analyze idCommon idCommon [(boolConst, nullConst)]
        (some smallConst) =
      .error "expressions in ELSE clause must be of the same or compatible types as those in the THEN clauses." ∧
    caseClaimTy idCommon idCommon [{ type := .kNULLT }]
        (some { type := .kSMALLINT }) = .ok { type := .kSMALLINT } :=
  ⟨rfl, rfl⟩

/-- Helper: a successful run of the WHEN/THEN loop computes exactly the
type-level fold of the arm types, keeps the WHEN expressions in order, and
certifies every WHEN as BOOLEAN. -/
theorem caseLoop_ok (cs cn : SQLTypeInfo → SQLTypeInfo → SQLTypeInfo) :
    ∀ (wt : List (AExpr × AExpr)) (ti : SQLTypeInfo)
      (acc : List (AExpr × AExpr)) (ti' : SQLTypeInfo)
      (ps : List (AExpr × AExpr)),
      caseLoop cs cn wt ti acc = .ok (ti', ps) →
      caseTyFold cs cn (wt.map fun p => p.2.get_type_info) ti = .ok ti' ∧
      ps.map (fun q => q.1) = acc.map (fun q => q.1) ++ wt.map (fun p => p.1) ∧
      (∀ p ∈ wt, p.1.get_type_info.type = .kBOOLEAN) := by
  intro wt
  induction wt with
  | nil =>
    intro ti acc ti' ps h
    simp [caseLoop] at h
    obtain ⟨h1, h2⟩ := h
    subst h1
    subst h2
    simp [caseTyFold]
  | cons hd rest ih =>
    obtain ⟨e1, e2⟩ := hd
    intro ti acc ti' ps h
    by_cases h1 : e1.get_type_info.type = .kBOOLEAN
    case neg =>
      have hstep : caseLoop cs cn ((e1, e2) :: rest) ti acc =
          .error "Only boolean expressions can be used after WHEN." := by
        simp [caseLoop, h1]
      rw [hstep] at h
      simp at h
    case pos =>
      have hfin : ∀ (ti2 : SQLTypeInfo) (x : AExpr × AExpr),
          x.1 = e1 →
          caseCombineTy cs cn ti e2.get_type_info = .ok ti2 →
          caseLoop cs cn rest ti2 (acc ++ [x]) = .ok (ti', ps) →
          caseTyFold cs cn
            (((e1, e2) :: rest).map fun p => p.2.get_type_info) ti =
              .ok ti' ∧
          ps.map (fun q => q.1) =
            acc.map (fun q => q.1) ++
              (((e1, e2) :: rest).map fun p => p.1) ∧
          (∀ p ∈ (e1, e2) :: rest, p.1.get_type_info.type = .kBOOLEAN) := by
        intro ti2 x hx hcomb hrec
        have hih := ih ti2 (acc ++ [x]) ti' ps hrec
        refine ⟨?_, ?_, ?_⟩
        · simp only [List.map_cons, caseTyFold]
          rw [hcomb]
          exact hih.1
        · rw [hih.2.1]
          simp [hx]
        · intro p hp
          rcases List.mem_cons.mp hp with hp1 | hp1
          · rw [hp1]
            exact h1
          · exact hih.2.2 p hp1
      by_cases h2 : ti.type = .kNULLT
      · have hstep : caseLoop cs cn ((e1, e2) :: rest) ti acc =
            caseLoop cs cn rest e2.get_type_info (acc ++ [(e1, e2)]) := by
          simp [caseLoop, h1, h2]
        rw [hstep] at h
        exact hfin e2.get_type_info (e1, e2) rfl
          (by simp [caseCombineTy, h2]) h
      · by_cases h3 : e2.get_type_info.type = .kNULLT
        · have hstep : caseLoop cs cn ((e1, e2) :: rest) ti acc =
              caseLoop cs cn rest ti (acc ++ [(e1, e2.set_type_info ti)]) := by
            simp [caseLoop, h1, h2, h3]
          rw [hstep] at h
          exact hfin ti (e1, e2.set_type_info ti) rfl
            (by simp [caseCombineTy, h2, h3]) h
        · by_cases h4 : ti = e2.get_type_info
          · have hstep : caseLoop cs cn ((e1, e2) :: rest) ti acc =
                caseLoop cs cn rest ti (acc ++ [(e1, e2)]) := by
              simp [caseLoop, h1, h2, h3, h4]
            rw [hstep] at h
            exact hfin ti (e1, e2) rfl
              (by simp [caseCombineTy, h2, h3, h4]) h
          · by_cases h5 : IS_STRING ti.type = true ∧
                IS_STRING e2.get_type_info.type = true
            · have hstep : caseLoop cs cn ((e1, e2) :: rest) ti acc =
                  caseLoop cs cn rest (cs ti e2.get_type_info)
                    (acc ++ [(e1, e2)]) := by
                simp [caseLoop, h1, h2, h3, h4, h5]
              rw [hstep] at h
              exact hfin (cs ti e2.get_type_info) (e1, e2) rfl
                (by simp [caseCombineTy, h2, h3, h4, h5]) h
            · by_cases h6 : IS_NUMBER ti.type = true ∧
                  IS_NUMBER e2.get_type_info.type = true
              · have hstep : caseLoop cs cn ((e1, e2) :: rest) ti acc =
                    caseLoop cs cn rest (cn ti e2.get_type_info)
                      (acc ++ [(e1, e2)]) := by
                  simp [caseLoop, h1, h2, h3, h4, h5, h6]
                rw [hstep] at h
                exact hfin (cn ti e2.get_type_info) (e1, e2) rfl
                  (by simp [caseCombineTy, h2, h3, h4, h5, h6]) h
              · have hstep : caseLoop cs cn ((e1, e2) :: rest) ti acc =
                    .error "expressions in THEN clause must be of the same or compatible types." := by
                  simp [caseLoop, h1, h2, h3, h4, h5, h6]
                rw [hstep] at h
                simp at h

/-- Helper: a successful ELSE reconciliation computes exactly the
type-level ELSE step. -/
theorem caseElse_ok (cs cn : SQLTypeInfo → SQLTypeInfo → SQLTypeInfo)
    (ti : SQLTypeInfo) (e : AExpr) (ti1 : SQLTypeInfo) (e1 : AExpr)
    (h : caseElse cs cn ti e = .ok (ti1, e1)) :
    caseElseTy cs cn ti e.get_type_info = .ok ti1 := by
  unfold caseElse at h
  by_cases h1 : e.get_type_info.type = .kNULLT
  · rw [if_pos h1] at h
    simp at h
    unfold caseElseTy
    rw [if_pos h1, h.1]
  · rw [if_neg h1] at h
    by_cases h2 : ti = e.get_type_info
    · rw [if_neg (not_not_intro h2)] at h
      simp at h
      unfold caseElseTy
      rw [if_neg h1, if_neg (not_not_intro h2), h.1]
    · rw [if_pos h2] at h
      by_cases h3 : IS_STRING ti.type = true ∧
          IS_STRING e.get_type_info.type = true
      · rw [if_pos h3] at h
        simp at h
        unfold caseElseTy
        rw [if_neg h1, if_pos h2, if_pos h3, h.1]
      · rw [if_neg h3] at h
        by_cases h4 : IS_NUMBER ti.type = true ∧
            IS_NUMBER e.get_type_info.type = true
        · rw [if_pos h4] at h
          simp at h
          unfold caseElseTy
          rw [if_neg h1, if_pos h2, if_neg h3, if_pos h4, h.1]
        · rw [if_neg h4] at h
          simp at h

/-- C5 (amended): a successfully analyzed CASE yields a `CaseExpr` whose
type is the fold of a running type starting at NULLT over the THEN arms —
NULLT arm keeps the running type, NULLT running type takes the arm's type,
differing strings via `common_string_type`, differing numbers via
`common_numeric_type`, otherwise TypeError — followed by the asymmetric
ELSE step, in which a NULLT running type is *not* replaced by the ELSE
type; every WHEN is BOOLEAN (so a non-BOOLEAN WHEN forces an error), the
WHEN expressions are kept in order, and every THEN arm and the ELSE arm of
the result carry exactly the final type. -/
theorem caseExpr_type_reconciliation
    (cs cn : SQLTypeInfo → SQLTypeInfo → SQLTypeInfo)
    (wt : List (AExpr × AExpr)) (el : Option AExpr) (res : AExpr)
    (h : CaseExpr.analyze cs cn wt el = .ok res) :
    ∃ ti ps ee, res = .CaseExpr ti ps ee ∧
      caseResultTy cs cn (wt.map fun p => p.2.get_type_info)
        (el.map AExpr.get_type_info) = .ok ti ∧
      ps.map (fun q => q.1) = wt.map (fun p => p.1) ∧
      (∀ p ∈ wt, p.1.get_type_info.type = .kBOOLEAN) ∧
      (∀ q ∈ ps, q.2.get_type_info = ti) ∧
      (el = none → ee = none) ∧
      (∀ e0, el = some e0 → ∃ e1, ee = some e1 ∧ e1.get_type_info = ti) := by
  unfold CaseExpr.analyze at h
  cases hloop : caseLoop cs cn wt { type := .kNULLT } [] with
  | error m => rw [hloop] at h; simp [bind, Except.bind] at h
  | ok pr =>
    obtain ⟨ti0, pl⟩ := pr
    rw [hloop] at h
    have hlo := caseLoop_ok cs cn wt { type := .kNULLT } [] ti0 pl hloop
    cases el with
    | none =>
      simp only [bind, Except.bind, pure, Except.pure] at h
      refine ⟨ti0, pl.map (fun p => (p.1, p.2.add_cast ti0)), none, ?_, ?_,
        ?_, hlo.2.2, ?_, fun _ => rfl, ?_⟩
      · simp at h
        exact h.symm
      · unfold caseResultTy
        rw [hlo.1]
        rfl
      · rw [List.map_map]
        have : ((fun q => q.1) ∘ fun (p : AExpr × AExpr) =>
            (p.1, p.2.add_cast ti0)) = fun q => q.1 := rfl
        rw [this]
        simpa using hlo.2.1
      · intro q hq
        rw [List.mem_map] at hq
        obtain ⟨p, _, hpq⟩ := hq
        rw [← hpq]
        exact add_cast_type p.2 ti0
      · intro e0 he0
        cases he0
    | some e0 =>
      cases helse : caseElse cs cn ti0 e0 with
      | error m =>
        simp only [bind, Except.bind, pure, Except.pure] at h
        rw [helse] at h
        simp at h
      | ok pr2 =>
        obtain ⟨ti1, e1⟩ := pr2
        have hel := caseElse_ok cs cn ti0 e0 ti1 e1 helse
        simp only [bind, Except.bind, pure, Except.pure] at h
        rw [helse] at h
        simp at h
        refine ⟨ti1, pl.map (fun p => (p.1, p.2.add_cast ti1)),
          some (e1.add_cast ti1), ?_, ?_, ?_, hlo.2.2, ?_, ?_, ?_⟩
        · exact h.symm
        · unfold caseResultTy
          rw [hlo.1]
          simpa using hel
        · rw [List.map_map]
          have : ((fun q => q.1) ∘ fun (p : AExpr × AExpr) =>
              (p.1, p.2.add_cast ti1)) = fun q => q.1 := rfl
          rw [this]
          simpa using hlo.2.1
        · intro q hq
          rw [List.mem_map] at hq
          obtain ⟨p, _, hpq⟩ := hq
          rw [← hpq]
          exact add_cast_type p.2 ti1
        · intro hn
          cases hn
        · intro e2 he2
          exact ⟨e1.add_cast ti1, rfl, add_cast_type e1 ti1⟩

/-- Witness for `caseExpr_type_reconciliation` on
`CASE WHEN b THEN 1 END`: the analysis succeeds and the theorem applies. -/
theorem caseExpr_type_reconciliation_witness :
    ∃ ti ps ee,
      (AExpr.CaseExpr { type := .kSMALLINT } [(boolConst, smallConst)] none) =
        .CaseExpr ti ps ee ∧
      caseResultTy idCommon idCommon
        ([(boolConst, smallConst)].map fun p => p.2.get_type_info)
        ((none : Option AExpr).map AExpr.get_type_info) = .ok ti ∧
      ps.map (fun q => q.1) =
        ([(boolConst, smallConst)].map fun p => p.1) ∧
      (∀ p ∈ [(boolConst, smallConst)],
        (p : AExpr × AExpr).1.get_type_info.type = .kBOOLEAN) ∧
      (∀ q ∈ ps, q.2.get_type_info = ti) ∧
      ((none : Option AExpr) = none → ee = none) ∧
      (∀ e0, (none : Option AExpr) = some e0 →
        ∃ e1, ee = some e1 ∧ e1.get_type_info = ti) :=
  caseExpr_type_reconciliation idCommon idCommon
    [(boolConst, smallConst)] none
    (AExpr.CaseExpr { type := .kSMALLINT } [(boolConst, smallConst)] none) rfl

end MapD
